import Mathlib

/-!
Verification of the displacement-wick strategy evaluation pipeline
(`src/displacement_wick_optimizer.py`).

Prices and derived quantities are modelled as exact rationals (`ℚ`).
A pandas column that can hold NaN (stop price, target price, risk, ATR,
rolling standard deviation) is modelled as `Option ℚ`, with `none` playing
the role of NaN; NaN-propagating comparisons (`NaN > x` is `False` in
pandas/numpy) are translated explicitly at each use site.

The source's rolling standard deviation `body_std` is carried here as the
rolling sample variance `body_var` (to stay inside `ℚ`); every use in the
source is a comparison `body > k * body_std` with `body ≥ 0`, `k > 0` and
`body_std ≥ 0`, which is equivalent to `k^2 * body_var < body^2`.

Field and definition names follow the source. `open` is a Lean keyword, so
the bar field is `open_`; names that the source spells `..._ratio` carry a
trailing underscore here (`upper_wick_body_ratio_` is the source column
`upper_wick_body_ratio`).
-/

namespace DisplacementWick

/-- Bars carry a timestamp and OHLC prices. Volume is present in the input
data but never read by the strategy class, so it is omitted. -/
structure Bar where
  time : ℤ
  open_ : ℚ
  high : ℚ
  low : ℚ
  close : ℚ
deriving DecidableEq, Repr

/-- Enumerated `entry_method` values ('zone_touch' or 'wick_sweep'). -/
inductive EntryMethod
  | zone_touch
  | wick_sweep
deriving DecidableEq, Repr

/-- Enumerated `target_method` values. -/
inductive TargetMethod
  | fixed_rr
  | wick_fill
  | body_fill
  | entire_candle
deriving DecidableEq, Repr

/-- Enumerated `stop_method` values. -/
inductive StopMethod
  | wick_extreme
  | atr
  | fixed_ticks
deriving DecidableEq, Repr

/-- Enumerated `trade_direction` values. -/
inductive TradeDirection
  | auto
  | long_only
  | short_only
  | both
deriving DecidableEq, Repr

/-- The strategy parameter dictionary (see `default_params` / `objective`).
`min_wick_body_ratio_` is the source key `min_wick_body_ratio`. -/
structure Params where
  displacement_length : ℕ
  min_displacement_strength : ℕ
  max_displacement_strength : ℕ
  min_wick_pct : ℚ
  min_wick_body_ratio_ : ℚ
  trend_ema_length : ℕ
  entry_method : EntryMethod
  target_method : TargetMethod
  stop_method : StopMethod
  atr_stop_mult : ℚ
  wick_extreme_mult : ℚ
  fixed_stop_ticks : ℤ
  target_rr : ℚ
  use_max_risk_filter : Bool
  max_risk_ticks : ℤ
  trade_direction : TradeDirection
  zone_extend_bars : ℕ
  tick_size : ℚ
  tick_value : ℚ
deriving DecidableEq, Repr

/-- Default bar used by the total list accessor (indices are always kept in
range by the callers; the default never influences a stated result). -/
def defaultBar : Bar := ⟨0, 0, 0, 0, 0⟩

/-- Row access `df.iloc[i]`, totalised with a default. -/
def getAt (bars : List Bar) (i : ℕ) : Bar := bars.getD i defaultBar

/-! ### Indicator Calculator (`calculate_indicators`) -/

/-- Column `body = abs(close - open)`. -/
def body (b : Bar) : ℚ := |b.close - b.open_|

/-- Column `range = high - low`. -/
def range (b : Bar) : ℚ := b.high - b.low

/-- Column `upper_wick = high - max(open, close)`. -/
def upper_wick (b : Bar) : ℚ := b.high - max b.open_ b.close

/-- Column `lower_wick = min(open, close) - low`. -/
def lower_wick (b : Bar) : ℚ := min b.open_ b.close - b.low

/-- Column `body_top = max(open, close)`. -/
def body_top (b : Bar) : ℚ := max b.open_ b.close

/-- Column `body_bottom = min(open, close)`. -/
def body_bottom (b : Bar) : ℚ := min b.open_ b.close

/-- Column `upper_wick_pct = upper_wick / range * 100` when `range > 0`, else 0. -/
def upper_wick_pct (b : Bar) : ℚ :=
  if 0 < range b then upper_wick b / range b * 100 else 0

/-- Column `lower_wick_pct = lower_wick / range * 100` when `range > 0`, else 0. -/
def lower_wick_pct (b : Bar) : ℚ :=
  if 0 < range b then lower_wick b / range b * 100 else 0

/-- Column `upper_wick_body_ratio = upper_wick / body` when `body > 0`, else 0. -/
def upper_wick_body_ratio_ (b : Bar) : ℚ :=
  if 0 < body b then upper_wick b / body b else 0

/-- Column `lower_wick_body_ratio = lower_wick / body` when `body > 0`, else 0. -/
def lower_wick_body_ratio_ (b : Bar) : ℚ :=
  if 0 < body b then lower_wick b / body b else 0

/-- Column `is_bullish = close > open`. -/
def is_bullish (b : Bar) : Bool := decide (b.open_ < b.close)

/-- Column `is_bearish = close < open`. -/
def is_bearish (b : Bar) : Bool := decide (b.close < b.open_)

/-- Arithmetic mean of a list of rationals (`Series.mean`). -/
def mean (xs : List ℚ) : ℚ := xs.sum / xs.length

/-- Sample variance with one delta degree of freedom, the square of
pandas' default `Series.std` (`ddof=1`). -/
def sampleVar (xs : List ℚ) : ℚ :=
  (xs.map (fun x => (x - mean xs) ^ 2)).sum / ((xs.length : ℚ) - 1)

/-- The trailing window of `body` values that `rolling(displacement_length)`
sees at row `i`: indices `i+1-L` through `i`. -/
def bodyWindow (bars : List Bar) (L i : ℕ) : List ℚ :=
  ((bars.take (i + 1)).drop (i + 1 - L)).map body

/-- Column `body_std = body.rolling(displacement_length).std()`, carried as
its square. `none` (NaN) while the window is not yet full, and also for a
window of length 1, where `std(ddof=1)` divides by zero and yields NaN. -/
def body_var (p : Params) (bars : List Bar) (i : ℕ) : Option ℚ :=
  if 2 ≤ p.displacement_length ∧ p.displacement_length ≤ i + 1 then
    some (sampleVar (bodyWindow bars p.displacement_length i))
  else none

/-- Column `displacement_strength`: 4/3/2/1 as `body` exceeds 4/3/2/1 rolling
standard deviations, else 0. Each source comparison `body > k * body_std` is
`k^2 * body_var < body^2` here (both sides of the source comparison are
nonnegative, so squaring is an equivalence); a NaN `body_std` compares as
`False` in numpy, giving strength 0, which the `none` branch mirrors. -/
def displacement_strength (p : Params) (bars : List Bar) (i : ℕ) : ℕ :=
  match body_var p bars i with
  | none => 0
  | some v =>
    let b := body (getAt bars i)
    if v * 16 < b ^ 2 then 4
    else if v * 9 < b ^ 2 then 3
    else if v * 4 < b ^ 2 then 2
    else if v < b ^ 2 then 1
    else 0

/-- Column `ema = close.ewm(span=trend_ema_length, adjust=False).mean()`:
`y 0 = close 0`, `y (i+1) = α * close (i+1) + (1 - α) * y i` with
`α = 2 / (span + 1)`. -/
def ema (p : Params) (bars : List Bar) : ℕ → ℚ
  | 0 => (getAt bars 0).close
  | i + 1 =>
    (2 / ((p.trend_ema_length : ℚ) + 1)) * (getAt bars (i + 1)).close +
      (1 - 2 / ((p.trend_ema_length : ℚ) + 1)) * ema p bars i

/-- Column `is_uptrend = close > ema`. -/
def is_uptrend (p : Params) (bars : List Bar) (i : ℕ) : Bool :=
  decide (ema p bars i < (getAt bars i).close)

/-- Column `is_downtrend = close < ema`. -/
def is_downtrend (p : Params) (bars : List Bar) (i : ℕ) : Bool :=
  decide ((getAt bars i).close < ema p bars i)

/-- True range (`_calculate_atr`): at row 0 the shifted previous close is NaN
and `pd.concat(...).max(axis=1)` skips NaN entries, leaving `high - low`. -/
def tr (bars : List Bar) : ℕ → ℚ
  | 0 => (getAt bars 0).high - (getAt bars 0).low
  | j + 1 =>
    let b := getAt bars (j + 1)
    let pc := (getAt bars j).close
    max (b.high - b.low) (max |b.high - pc| |b.low - pc|)

/-- Column `atr = tr.rolling(14).mean()`: NaN (`none`) for the first 13 rows. -/
def atr (bars : List Bar) (i : ℕ) : Option ℚ :=
  if 13 ≤ i then
    some ((((List.range 14).map (fun j => tr bars (i - 13 + j))).sum) / 14)
  else none

/-- Column `has_upper_wick`: both wick thresholds met simultaneously. -/
def has_upper_wick (p : Params) (bars : List Bar) (i : ℕ) : Bool :=
  decide (p.min_wick_pct ≤ upper_wick_pct (getAt bars i)) &&
    decide (p.min_wick_body_ratio_ ≤ upper_wick_body_ratio_ (getAt bars i))

/-- Column `has_lower_wick`: both wick thresholds met simultaneously. -/
def has_lower_wick (p : Params) (bars : List Bar) (i : ℕ) : Bool :=
  decide (p.min_wick_pct ≤ lower_wick_pct (getAt bars i)) &&
    decide (p.min_wick_body_ratio_ ≤ lower_wick_body_ratio_ (getAt bars i))

/-- Column `is_valid_displacement`: strength within the configured band. -/
def is_valid_displacement (p : Params) (bars : List Bar) (i : ℕ) : Bool :=
  decide (p.min_displacement_strength ≤ displacement_strength p bars i) &&
    decide (displacement_strength p bars i ≤ p.max_displacement_strength)

/-- The bundle of per-bar columns `calculate_indicators` writes.
`body_var` stands for the source's `body_std` column (squared, see the file
header); `upper_wick_body_ratio_` and `lower_wick_body_ratio_` are the
source columns `upper_wick_body_ratio` and `lower_wick_body_ratio`. -/
structure IndicatorRecord where
  body : ℚ
  range : ℚ
  upper_wick : ℚ
  lower_wick : ℚ
  body_top : ℚ
  body_bottom : ℚ
  upper_wick_pct : ℚ
  lower_wick_pct : ℚ
  upper_wick_body_ratio_ : ℚ
  lower_wick_body_ratio_ : ℚ
  body_var : Option ℚ
  displacement_strength : ℕ
  ema : ℚ
  is_uptrend : Bool
  is_downtrend : Bool
  atr : Option ℚ
  is_bullish : Bool
  is_bearish : Bool
  has_upper_wick : Bool
  has_lower_wick : Bool
  is_valid_displacement : Bool
deriving DecidableEq, Repr

/-- Row `i` of the columns written by `calculate_indicators`. -/
def indicatorRecord (p : Params) (bars : List Bar) (i : ℕ) : IndicatorRecord :=
  { body := body (getAt bars i)
    range := range (getAt bars i)
    upper_wick := upper_wick (getAt bars i)
    lower_wick := lower_wick (getAt bars i)
    body_top := body_top (getAt bars i)
    body_bottom := body_bottom (getAt bars i)
    upper_wick_pct := upper_wick_pct (getAt bars i)
    lower_wick_pct := lower_wick_pct (getAt bars i)
    upper_wick_body_ratio_ := upper_wick_body_ratio_ (getAt bars i)
    lower_wick_body_ratio_ := lower_wick_body_ratio_ (getAt bars i)
    body_var := body_var p bars i
    displacement_strength := displacement_strength p bars i
    ema := ema p bars i
    is_uptrend := is_uptrend p bars i
    is_downtrend := is_downtrend p bars i
    atr := atr bars i
    is_bullish := is_bullish (getAt bars i)
    is_bearish := is_bearish (getAt bars i)
    has_upper_wick := has_upper_wick p bars i
    has_lower_wick := has_lower_wick p bars i
    is_valid_displacement := is_valid_displacement p bars i }

/-! ### Signal Generator (`generate_signals`) -/

/-- Column `short_base`: valid displacement, bullish candle, significant upper wick. -/
def short_base (p : Params) (bars : List Bar) (i : ℕ) : Bool :=
  is_valid_displacement p bars i && is_bullish (getAt bars i) &&
    has_upper_wick p bars i

/-- Column `long_base`: valid displacement, bearish candle, significant lower wick. -/
def long_base (p : Params) (bars : List Bar) (i : ℕ) : Bool :=
  is_valid_displacement p bars i && is_bearish (getAt bars i) &&
    has_lower_wick p bars i

/-- Column `short_signal` as produced by `generate_signals` (before the
max-risk filter): direction-mode gating applied to `short_base`. -/
def short_signal (p : Params) (bars : List Bar) (i : ℕ) : Bool :=
  match p.trade_direction with
  | .auto => short_base p bars i && is_downtrend p bars i
  | .long_only => false
  | .short_only => short_base p bars i
  | .both => short_base p bars i

/-- Column `long_signal` as produced by `generate_signals` (before the
max-risk filter): direction-mode gating applied to `long_base`. -/
def long_signal (p : Params) (bars : List Bar) (i : ℕ) : Bool :=
  match p.trade_direction with
  | .auto => long_base p bars i && is_uptrend p bars i
  | .long_only => long_base p bars i
  | .short_only => false
  | .both => long_base p bars i

/-! ### Risk-Level Calculator (`calculate_stops_targets`) -/

/-- Series `stop_distance`: ATR-scaled, constant ticks, or an unused zero
placeholder for `wick_extreme` (which computes its stop directly). -/
def stop_distance (p : Params) (bars : List Bar) (i : ℕ) : Option ℚ :=
  match p.stop_method with
  | .atr => (atr bars i).map (· * p.atr_stop_mult)
  | .fixed_ticks => some ((p.fixed_stop_ticks : ℚ) * p.tick_size)
  | .wick_extreme => some 0

/-- Column `stop_price`. The source assigns the SHORT block first and the
LONG block second, so where both masks held the LONG value would win; the
LONG branch therefore comes first in this if-chain (the two masks are in
fact disjoint, since `is_bullish` and `is_bearish` exclude each other). -/
def stop_price (p : Params) (bars : List Bar) (i : ℕ) : Option ℚ :=
  if long_signal p bars i then
    match p.stop_method with
    | .wick_extreme =>
      some ((getAt bars i).low - lower_wick (getAt bars i) * p.wick_extreme_mult)
    | _ => (stop_distance p bars i).map (fun d => (getAt bars i).low - d)
  else if short_signal p bars i then
    match p.stop_method with
    | .wick_extreme =>
      some ((getAt bars i).high + upper_wick (getAt bars i) * p.wick_extreme_mult)
    | _ => (stop_distance p bars i).map (fun d => (getAt bars i).high + d)
  else none

/-- Column `risk`: `stop_price - entry` for shorts (entry = high),
`entry - stop_price` for longs (entry = low). -/
def risk (p : Params) (bars : List Bar) (i : ℕ) : Option ℚ :=
  if long_signal p bars i then
    (stop_price p bars i).map (fun s => (getAt bars i).low - s)
  else if short_signal p bars i then
    (stop_price p bars i).map (fun s => s - (getAt bars i).high)
  else none

/-- Column `target_price`, per `target_method`; the source's final `else`
branch is `body_fill`. As with `stop_price`, the LONG block is applied
second in the source and hence comes first here. -/
def target_price (p : Params) (bars : List Bar) (i : ℕ) : Option ℚ :=
  if long_signal p bars i then
    match p.target_method with
    | .fixed_rr => (risk p bars i).map (fun r => (getAt bars i).low + r * p.target_rr)
    | .wick_fill => some (body_bottom (getAt bars i))
    | .entire_candle => some ((getAt bars i).high)
    | .body_fill => some (body_top (getAt bars i))
  else if short_signal p bars i then
    match p.target_method with
    | .fixed_rr => (risk p bars i).map (fun r => (getAt bars i).high - r * p.target_rr)
    | .wick_fill => some (body_top (getAt bars i))
    | .entire_candle => some ((getAt bars i).low)
    | .body_fill => some (body_bottom (getAt bars i))
  else none

/-- The max-risk filter mask `df['risk'] > max_risk_ticks * tick_size`
(a NaN risk compares as `False`), gated on `use_max_risk_filter`. -/
def exceeds_max_risk (p : Params) (bars : List Bar) (i : ℕ) : Bool :=
  p.use_max_risk_filter &&
    match risk p bars i with
    | some r => decide ((p.max_risk_ticks : ℚ) * p.tick_size < r)
    | none => false

/-- Column `short_signal` after the max-risk filter pass. -/
def short_signal_f (p : Params) (bars : List Bar) (i : ℕ) : Bool :=
  short_signal p bars i && !exceeds_max_risk p bars i

/-- Column `long_signal` after the max-risk filter pass. -/
def long_signal_f (p : Params) (bars : List Bar) (i : ℕ) : Bool :=
  long_signal p bars i && !exceeds_max_risk p bars i

/-- The per-bar state of the signal/level columns after
`calculate_stops_targets` returns: the filter pass rewrites only the two
signal columns, so `stop_price`, `target_price` and `risk` keep the values
assigned before the filter ran. -/
structure RiskRow where
  short_signal : Bool
  long_signal : Bool
  stop_price : Option ℚ
  target_price : Option ℚ
  risk : Option ℚ
deriving DecidableEq, Repr

/-- Row `i` of the dataframe columns written by `calculate_stops_targets`,
as they stand when the method returns. -/
def riskRow (p : Params) (bars : List Bar) (i : ℕ) : RiskRow :=
  { short_signal := short_signal_f p bars i
    long_signal := long_signal_f p bars i
    stop_price := stop_price p bars i
    target_price := target_price p bars i
    risk := risk p bars i }

/-! ### Trade Simulator (`backtest`) -/

/-- Trade direction of a position or trade. -/
inductive Dir
  | long
  | short
deriving DecidableEq, Repr

/-- Exit reason recorded on a closed trade. -/
inductive ExitReason
  | stop
  | target
deriving DecidableEq, Repr

/-- The `position` dictionary held while a trade is open. -/
structure Position where
  direction : Dir
  entry : ℚ
  entry_time : ℤ
  stop : ℚ
  target : ℚ
  risk : ℚ
deriving DecidableEq, Repr

/-- A closed trade as appended to `trades`; `exit_price` is the source key
named `exit`. -/
structure Trade where
  entry_time : ℤ
  exit_time : ℤ
  direction : Dir
  entry : ℚ
  exit_price : ℚ
  stop : ℚ
  target : ℚ
  pnl_points : ℚ
  pnl_ticks : ℚ
  pnl_dollars : ℚ
  exit_reason : ExitReason
  risk : ℚ
  r_multiple : ℚ
deriving DecidableEq, Repr

/-- The exit test run against the bar after the current one: the stop branch
is an `if` and the target branch its `elif`, for either direction. -/
def exitCheck (q : Position) (next : Bar) : Option (ℚ × ExitReason) :=
  match q.direction with
  | .long =>
    if next.low ≤ q.stop then some (q.stop, .stop)
    else if q.target ≤ next.high then some (q.target, .target)
    else none
  | .short =>
    if q.stop ≤ next.high then some (q.stop, .stop)
    else if next.low ≤ q.target then some (q.target, .target)
    else none

/-- The trade record built on exit: PnL in points, ticks and dollars, with
`r_multiple = pnl / risk` when `risk > 0` and 0 otherwise. -/
def mkTrade (p : Params) (q : Position) (exit_time : ℤ) (ep : ℚ)
    (reason : ExitReason) : Trade :=
  let pnl := match q.direction with
    | .long => ep - q.entry
    | .short => q.entry - ep
  { entry_time := q.entry_time
    exit_time := exit_time
    direction := q.direction
    entry := q.entry
    exit_price := ep
    stop := q.stop
    target := q.target
    pnl_points := pnl
    pnl_ticks := pnl / p.tick_size
    pnl_dollars := pnl / p.tick_size * p.tick_value
    exit_reason := reason
    risk := q.risk
    r_multiple := if 0 < q.risk then pnl / q.risk else 0 }

/-- The entry check at loop index `i` (run only while flat): a filtered
signal plus a non-NaN `stop_price` opens a position at the next bar's open,
with stop/target rebuilt around the fill from the signal bar's `risk` and
`target_rr`, short checked before long. The `risk` column is non-NaN
whenever `stop_price` is (it is defined as `stop_price` minus/plus the
entry), so the `getD 0` default is never the value used. -/
def tryEntry (p : Params) (bars : List Bar) (i : ℕ) : Option Position :=
  let next := getAt bars (i + 1)
  if short_signal_f p bars i && (stop_price p bars i).isSome then
    let r := (risk p bars i).getD 0
    some { direction := .short
           entry := next.open_
           entry_time := next.time
           stop := next.open_ + r
           target := next.open_ - r * p.target_rr
           risk := r }
  else if long_signal_f p bars i && (stop_price p bars i).isSome then
    let r := (risk p bars i).getD 0
    some { direction := .long
           entry := next.open_
           entry_time := next.time
           stop := next.open_ - r
           target := next.open_ + r * p.target_rr
           risk := r }
  else none

/-- One iteration of the backtest loop at index `i`: first the exit check
against bar `i + 1` if a position is open, then — only if now flat — the
entry check on bar `i`'s signal. -/
def backtestStep (p : Params) (bars : List Bar)
    (st : List Trade × Option Position) (i : ℕ) : List Trade × Option Position :=
  let next := getAt bars (i + 1)
  let exited : List Trade × Option Position :=
    match st.2 with
    | none => (st.1, none)
    | some q =>
      match exitCheck q next with
      | none => (st.1, some q)
      | some (ep, reason) => (st.1 ++ [mkTrade p q next.time ep reason], none)
  match exited.2 with
  | some q => (exited.1, some q)
  | none => (exited.1, tryEntry p bars i)

/-- The trade list produced by `backtest`: a single pass of `backtestStep`
over `i in range(len(df) - 1)` starting flat; a position still open at the
end of the data is discarded unrealized. -/
def backtestTrades (p : Params) (bars : List Bar) : List Trade :=
  ((List.range (bars.length - 1)).foldl (backtestStep p bars) ([], none)).1

/-! ### Metrics Aggregator (`calculate_metrics`) -/

/-- Running cumulative sums (`Series.cumsum`). -/
def cumsum (xs : List ℚ) : List ℚ := (xs.scanl (· + ·) 0).tail

/-- Running maxima (`Series.cummax`). -/
def runningMax : List ℚ → List ℚ
  | [] => []
  | x :: rest => rest.scanl max x

/-- The metrics dictionary. `profit_factor` lives in `WithTop ℚ` so that the
`float('inf')` sentinel is `⊤`; `sharpe` needs a real square root and is the
one non-rational field. -/
structure Metrics where
  total_trades : ℕ
  win_rate : ℚ
  profit_factor : WithTop ℚ
  total_pnl : ℚ
  avg_winner : ℚ
  avg_loser : ℚ
  max_drawdown : ℚ
  sharpe : ℝ
  avg_r : ℚ

/-- Method `calculate_metrics`: all-zero for an empty trade list, otherwise the
aggregates of the source. `max_drawdown` is the maximum of the drawdown
series, whose first entry is always 0, so a fold seeded with 0 computes
exactly `Series.max`; pandas' `std() > 0` test is false both for a NaN
standard deviation (fewer than 2 trades) and for a zero one, which the
`sharpe` guard mirrors on the variance. -/
noncomputable def calculate_metrics (trades : List Trade) : Metrics :=
  if trades = [] then
    { total_trades := 0, win_rate := 0, profit_factor := 0, total_pnl := 0
      avg_winner := 0, avg_loser := 0, max_drawdown := 0, sharpe := 0, avg_r := 0 }
  else
    let pnls := trades.map Trade.pnl_dollars
    let winners := pnls.filter (fun x => decide (0 < x))
    let losers := pnls.filter (fun x => decide (x ≤ 0))
    let gross_profit := winners.sum
    let gross_loss := |losers.sum|
    let cumulative := cumsum pnls
    let drawdown := List.zipWith (· - ·) (runningMax cumulative) cumulative
    { total_trades := trades.length
      win_rate := (winners.length : ℚ) / (trades.length : ℚ) * 100
      profit_factor := if 0 < gross_loss then ((gross_profit / gross_loss : ℚ) : WithTop ℚ) else ⊤
      total_pnl := pnls.sum
      avg_winner := if winners = [] then 0 else mean winners
      avg_loser := if losers = [] then 0 else mean losers
      max_drawdown := drawdown.foldl max 0
      sharpe :=
        if 2 ≤ trades.length ∧ 0 < sampleVar pnls then
          (mean pnls : ℝ) / Real.sqrt ((sampleVar pnls : ℚ) : ℝ)
        else 0
      avg_r := mean (trades.map Trade.r_multiple) }

/-! ### Parameter Search Controller -/

/-- The displacement-strength clamp the `objective` function applies to a
sampled parameter set before constructing the strategy (and that
`run_optimization` repeats on the best parameters): when
`max_displacement_strength < min_displacement_strength`, the maximum is
raised to the minimum; nothing else is changed and no candidate is
rejected. -/
def clampDisplacement (p : Params) : Params :=
  if p.max_displacement_strength < p.min_displacement_strength then
    { p with max_displacement_strength := p.min_displacement_strength }
  else p

/-- The parameter-set update a search trial performs on the three fields the
evaluation pipeline never consumes (`entry_method` and `zone_extend_bars`
are never read; `target_method` only shapes the unread `target_price`
column). -/
def searchUpdate (p : Params) (e : EntryMethod) (t : TargetMethod)
    (z : ℕ) : Params :=
  { p with entry_method := e, target_method := t, zone_extend_bars := z }

/-! ### Concrete evaluation data

A small bar list and parameter sets used to instantiate the theorems below
on concrete inputs. With `displacement_length = 2`, bar 1 (body 4 against a
rolling window of bodies `[0, 4]`, sample variance 8, `16 > 8`) is a
strength-1 bullish displacement bar whose upper wick passes the zeroed wick
thresholds, so it carries a short signal under `trade_direction = both`. -/

/-- Demo parameter set (fixed-tick stops, fixed-RR targets, filter off). -/
def demoParams : Params :=
  ⟨2, 1, 4, 0, 0, 50, .zone_touch, .fixed_rr, .fixed_ticks, 3 / 2, 1, 4, 2,
    false, 60, .both, 50, 1 / 4, 1 / 2⟩

/-- Demo bars: a flat warm-up bar, a signalling displacement bar, a flat
fill bar, and a wide bar that spans both the stop and the target of the
short position opened at bar 2. -/
def demoBars : List Bar :=
  [⟨0, 10, 10, 10, 10⟩, ⟨1, 10, 15, 10, 14⟩, ⟨2, 14, 14, 14, 14⟩,
    ⟨3, 14, 16, 10, 11⟩]

/-- Demo parameters with the max-risk filter on and a threshold
(`2 * 1/4 = 1/2`) below the demo signal bar's risk of 1. -/
def filterParams : Params :=
  ⟨2, 1, 4, 0, 0, 50, .zone_touch, .fixed_rr, .fixed_ticks, 3 / 2, 1, 4, 2,
    true, 2, .both, 50, 1 / 4, 1 / 2⟩

/-- Demo parameters with `wick_extreme` stops, for a zero-risk entry. -/
def wickParams : Params :=
  ⟨2, 1, 4, 0, 0, 50, .zone_touch, .fixed_rr, .wick_extreme, 3 / 2, 1, 4, 2,
    false, 60, .both, 50, 1 / 4, 1 / 2⟩

/-- Bars whose signal bar (bar 1) is bullish with a zero upper wick
(`high = close`), so a `wick_extreme` stop sits exactly at the entry zone
and the computed risk is 0; bar 3 tags the resulting stop. -/
def zeroRiskBars : List Bar :=
  [⟨0, 10, 10, 10, 10⟩, ⟨1, 10, 14, 10, 14⟩, ⟨2, 13, 13, 13, 13⟩,
    ⟨3, 13, 27 / 2, 13, 13⟩]

/-- Strictly increasing timestamps, as a computable check. -/
def timesIncreasing : List Bar → Bool
  | [] => true
  | [_] => true
  | a :: b :: rest => decide (a.time < b.time) && timesIncreasing (b :: rest)

/-- A position provably opened by the entry check of some in-range signal
bar: its fill price and fill time are the following bar's open and time,
and the signal bar carried a filtered signal. -/
def posOK (p : Params) (bars : List Bar) (q : Position) : Prop :=
  ∃ i, i + 1 < bars.length ∧
    (short_signal_f p bars i = true ∨ long_signal_f p bars i = true) ∧
    q.entry = (getAt bars (i + 1)).open_ ∧
    q.entry_time = (getAt bars (i + 1)).time

/-- The same provenance statement for an emitted trade. -/
def tradeOK (p : Params) (bars : List Bar) (t : Trade) : Prop :=
  ∃ i, i + 1 < bars.length ∧
    (short_signal_f p bars i = true ∨ long_signal_f p bars i = true) ∧
    t.entry = (getAt bars (i + 1)).open_ ∧
    t.entry_time = (getAt bars (i + 1)).time

/-- The single trade the demo data realizes: the short from bar 1, filled
at bar 2's open (14), stopped out on bar 3 at 15. -/
def demoTrade : Trade :=
  ⟨2, 3, .short, 14, 15, 15, 12, -1, -4, -2, .stop, 1, -1⟩

/-- Demo parameters with `wick_fill` targets. -/
def wickFillParams : Params := { demoParams with target_method := .wick_fill }

/-- Demo parameters with `body_fill` targets. -/
def bodyFillParams : Params := { demoParams with target_method := .body_fill }

/-- The short position the demo data opens at bar 2's open. -/
def demoPosition : Position := ⟨.short, 14, 2, 15, 12, 1⟩

/-- The zero-risk short position `zeroRiskBars` opens under `wickParams`. -/
def zeroPosition : Position := ⟨.short, 13, 2, 13, 13, 0⟩

/-- A candidate parameter set violating the displacement-strength
constraint (`max = 1 < 3 = min`). -/
def violatingParams : Params :=
  { demoParams with min_displacement_strength := 3, max_displacement_strength := 1 }

end DisplacementWick

attribute [local semireducible] Rat.add Rat.mul Rat.sub Rat.inv

set_option maxRecDepth 8000

namespace DisplacementWick

/-! ### Prefix stability of the Indicator and Signal columns -/

theorem getAt_take {bars : List Bar} {n i : ℕ} (h : i < n) :
    getAt (bars.take n) i = getAt bars i := by
  simp [getAt, List.getD_eq_getElem?_getD, List.getElem?_take_of_lt h]

theorem bodyWindow_take {bars : List Bar} {L n i : ℕ} (h : i < n) :
    bodyWindow (bars.take n) L i = bodyWindow bars L i := by
  unfold bodyWindow
  rw [List.take_take, Nat.min_eq_left (by omega)]

theorem body_var_take {p : Params} {bars : List Bar} {n i : ℕ} (h : i < n) :
    body_var p (bars.take n) i = body_var p bars i := by
  unfold body_var
  rw [bodyWindow_take h]

theorem displacement_strength_take {p : Params} {bars : List Bar} {n i : ℕ}
    (h : i < n) :
    displacement_strength p (bars.take n) i = displacement_strength p bars i := by
  unfold displacement_strength
  rw [body_var_take h, getAt_take h]

theorem ema_take {p : Params} {bars : List Bar} {n : ℕ} :
    ∀ i, i < n → ema p (bars.take n) i = ema p bars i := by
  intro i
  induction i with
  | zero =>
    intro h
    unfold ema
    rw [getAt_take h]
  | succ k ih =>
    intro h
    unfold ema
    rw [getAt_take h, ih (by omega)]

theorem tr_take {bars : List Bar} {n : ℕ} : ∀ i, i < n →
    tr (bars.take n) i = tr bars i := by
  intro i h
  cases i with
  | zero =>
    simp only [tr]
    rw [getAt_take h]
  | succ j =>
    simp only [tr]
    rw [getAt_take h, getAt_take (show j < n by omega)]

theorem atr_take {bars : List Bar} {n i : ℕ} (h : i < n) :
    atr (bars.take n) i = atr bars i := by
  by_cases h13 : 13 ≤ i
  · simp only [atr, if_pos h13]
    have hmap : (List.range 14).map (fun j => tr (bars.take n) (i - 13 + j)) =
        (List.range 14).map (fun j => tr bars (i - 13 + j)) := by
      apply List.map_congr_left
      intro j hj
      have hj14 : j < 14 := List.mem_range.mp hj
      exact tr_take (i - 13 + j) (by omega)
    rw [hmap]
  · simp only [atr, if_neg h13]

theorem is_uptrend_take {p : Params} {bars : List Bar} {n i : ℕ} (h : i < n) :
    is_uptrend p (bars.take n) i = is_uptrend p bars i := by
  unfold is_uptrend
  rw [getAt_take h, ema_take i h]

theorem is_downtrend_take {p : Params} {bars : List Bar} {n i : ℕ} (h : i < n) :
    is_downtrend p (bars.take n) i = is_downtrend p bars i := by
  unfold is_downtrend
  rw [getAt_take h, ema_take i h]

theorem has_upper_wick_take {p : Params} {bars : List Bar} {n i : ℕ} (h : i < n) :
    has_upper_wick p (bars.take n) i = has_upper_wick p bars i := by
  unfold has_upper_wick
  rw [getAt_take h]

theorem has_lower_wick_take {p : Params} {bars : List Bar} {n i : ℕ} (h : i < n) :
    has_lower_wick p (bars.take n) i = has_lower_wick p bars i := by
  unfold has_lower_wick
  rw [getAt_take h]

theorem is_valid_displacement_take {p : Params} {bars : List Bar} {n i : ℕ}
    (h : i < n) :
    is_valid_displacement p (bars.take n) i = is_valid_displacement p bars i := by
  unfold is_valid_displacement
  rw [displacement_strength_take h]

theorem short_base_take {p : Params} {bars : List Bar} {n i : ℕ} (h : i < n) :
    short_base p (bars.take n) i = short_base p bars i := by
  unfold short_base
  rw [is_valid_displacement_take h, getAt_take h, has_upper_wick_take h]

theorem long_base_take {p : Params} {bars : List Bar} {n i : ℕ} (h : i < n) :
    long_base p (bars.take n) i = long_base p bars i := by
  unfold long_base
  rw [is_valid_displacement_take h, getAt_take h, has_lower_wick_take h]

theorem short_signal_take {p : Params} {bars : List Bar} {n i : ℕ} (h : i < n) :
    short_signal p (bars.take n) i = short_signal p bars i := by
  unfold short_signal
  cases p.trade_direction <;>
    simp only [short_base_take h, is_downtrend_take h]

theorem long_signal_take {p : Params} {bars : List Bar} {n i : ℕ} (h : i < n) :
    long_signal p (bars.take n) i = long_signal p bars i := by
  unfold long_signal
  cases p.trade_direction <;>
    simp only [long_base_take h, is_uptrend_take h]

/-- Claim C6: no lookahead — the indicator columns and the signal computed
at index `i` are functions of bars at indices at most `i` only: computing
them on any prefix of the bar sequence that still contains index `i`
(`List.take n bars` with `i < n`) gives exactly the values computed on the
full sequence. -/
theorem claim_C6_no_lookahead (p : Params) (bars : List Bar) (n i : ℕ)
    (h : i < n) :
    indicatorRecord p (bars.take n) i = indicatorRecord p bars i ∧
    short_signal p (bars.take n) i = short_signal p bars i ∧
    long_signal p (bars.take n) i = long_signal p bars i := by
  refine ⟨?_, short_signal_take h, long_signal_take h⟩
  unfold indicatorRecord
  rw [getAt_take h, body_var_take h, displacement_strength_take h,
    ema_take i h, is_uptrend_take h, is_downtrend_take h, atr_take h,
    has_upper_wick_take h, has_lower_wick_take h, is_valid_displacement_take h]

/-- Witness for C6 at a concrete prefix: the record and signals of bar 1
agree between the first three demo bars and the full demo list. -/
theorem claim_C6_no_lookahead_witness :
    indicatorRecord demoParams (demoBars.take 3) 1 =
        indicatorRecord demoParams demoBars 1 ∧
    short_signal demoParams (demoBars.take 3) 1 =
        short_signal demoParams demoBars 1 ∧
    long_signal demoParams (demoBars.take 3) 1 =
        long_signal demoParams demoBars 1 :=
  claim_C6_no_lookahead demoParams demoBars 3 1 (by decide)

/-! ### Signal exclusivity -/

theorem long_base_eq_false_of_short_base {p : Params} {bars : List Bar} {i : ℕ}
    (h : short_base p bars i = true) : long_base p bars i = false := by
  unfold short_base at h
  simp only [Bool.and_eq_true] at h
  obtain ⟨⟨-, hbull⟩, -⟩ := h
  unfold is_bullish at hbull
  rw [decide_eq_true_eq] at hbull
  unfold long_base is_bearish
  have : decide ((getAt bars i).close < (getAt bars i).open_) = false := by
    simp [not_lt.mpr (le_of_lt hbull)]
  simp [this]

theorem long_signal_eq_false_of_short_signal {p : Params} {bars : List Bar}
    {i : ℕ} (h : short_signal p bars i = true) : long_signal p bars i = false := by
  unfold short_signal at h
  unfold long_signal
  revert h
  cases p.trade_direction
  case auto =>
    intro h
    have h' : (short_base p bars i && is_downtrend p bars i) = true := h
    show (long_base p bars i && is_uptrend p bars i) = false
    simp only [Bool.and_eq_true] at h'
    simp [long_base_eq_false_of_short_base h'.1]
  case long_only =>
    intro h
    exact absurd (show false = true from h) (by simp)
  case short_only =>
    intro h
    rfl
  case both =>
    intro h
    show long_base p bars i = false
    exact long_base_eq_false_of_short_base (show short_base p bars i = true from h)

/-! ### Claim C1 — target prices by method -/

/-- Claim C1 counterexample: on the demo data, bar 1 carries a short
signal; under `wick_fill` its target is the candle's body top (14), not the
body bottom (10) the claim names, and the body bottom is instead the
`body_fill` target. -/
theorem claim_C1_counterexample :
    short_signal wickFillParams demoBars 1 = true ∧
    body_top (getAt demoBars 1) = 14 ∧
    body_bottom (getAt demoBars 1) = 10 ∧
    target_price wickFillParams demoBars 1 = some (body_top (getAt demoBars 1)) ∧
    target_price wickFillParams demoBars 1 ≠ some (body_bottom (getAt demoBars 1)) ∧
    target_price bodyFillParams demoBars 1 = some (body_bottom (getAt demoBars 1)) := by
  decide

/-- Claim C1 as amended: for a bar with a short signal the `wick_fill`
target is the body top (the edge that fills the traded upper wick) and the
`body_fill` target is the body bottom; symmetrically, for a long signal the
`wick_fill` target is the body bottom and the `body_fill` target is the
body top. -/
theorem claim_C1_target_methods (p : Params) (bars : List Bar) (i : ℕ) :
    (short_signal p bars i = true →
      (p.target_method = .wick_fill →
        target_price p bars i = some (body_top (getAt bars i))) ∧
      (p.target_method = .body_fill →
        target_price p bars i = some (body_bottom (getAt bars i)))) ∧
    (long_signal p bars i = true →
      (p.target_method = .wick_fill →
        target_price p bars i = some (body_bottom (getAt bars i))) ∧
      (p.target_method = .body_fill →
        target_price p bars i = some (body_top (getAt bars i)))) := by
  constructor
  · intro hs
    have hl := long_signal_eq_false_of_short_signal hs
    constructor <;> intro htm <;> simp [target_price, hl, hs, htm]
  · intro hl
    constructor <;> intro htm <;> simp [target_price, hl, htm]

/-- Witness for the amended C1 at the demo data: the short-signal bar's
`wick_fill` and `body_fill` targets. -/
theorem claim_C1_target_methods_witness :
    target_price wickFillParams demoBars 1 = some (body_top (getAt demoBars 1)) ∧
    target_price bodyFillParams demoBars 1 = some (body_bottom (getAt demoBars 1)) :=
  ⟨((claim_C1_target_methods wickFillParams demoBars 1).1 (by decide)).1 rfl,
    ((claim_C1_target_methods bodyFillParams demoBars 1).1 (by decide)).2 rfl⟩

/-! ### Claim C3 — stop checked before target -/

/-- Claim C3: while a position is open, the exit check against the next bar
yields exactly one of no exit, a stop exit at the stop price, or a target
exit at the target price; the stop condition is checked first for either
direction (it wins even when the bar spans both levels), and a target exit
can only happen when the stop condition fails. -/
theorem claim_C3_stop_before_target (q : Position) (next : Bar) :
    (exitCheck q next = none ∨ exitCheck q next = some (q.stop, .stop) ∨
      exitCheck q next = some (q.target, .target)) ∧
    (q.direction = .long → next.low ≤ q.stop →
      exitCheck q next = some (q.stop, .stop)) ∧
    (q.direction = .short → q.stop ≤ next.high →
      exitCheck q next = some (q.stop, .stop)) ∧
    (∀ ep, exitCheck q next = some (ep, .target) →
      (q.direction = .long → ¬next.low ≤ q.stop) ∧
      (q.direction = .short → ¬q.stop ≤ next.high)) := by
  cases hd : q.direction <;>
    simp only [exitCheck, hd] <;>
    refine ⟨?_, ?_, ?_, ?_⟩
  · split_ifs <;> simp
  · intro _ hstop
    simp [hstop]
  · intro hcontr
    exact absurd hcontr (by simp)
  · intro ep h
    split_ifs at h with h1 h2 <;> simp_all
  · split_ifs <;> simp
  · intro hcontr
    exact absurd hcontr (by simp)
  · intro _ hstop
    simp [hstop]
  · intro ep h
    split_ifs at h with h1 h2 <;> simp_all

/-- Witness for C3 on the demo data: bar 3 spans both the stop (15 ≤ 16)
and the target (10 ≤ 12) of the open demo short, and the exit is the stop. -/
theorem claim_C3_stop_before_target_witness :
    (getAt demoBars 3).low ≤ demoPosition.target ∧
    exitCheck demoPosition (getAt demoBars 3) = some (demoPosition.stop, .stop) :=
  ⟨by decide,
    (claim_C3_stop_before_target demoPosition (getAt demoBars 3)).2.2.1 rfl (by decide)⟩

/-! ### Claim C9 — displacement-strength clamp -/

/-- Claim C9: the search objective clamps a sampled candidate before any
pipeline computation runs (the clamp is applied to the parameter dictionary
before the strategy object is built): after `clampDisplacement`, the
maximum displacement strength is at least the minimum; a violating
candidate is repaired by raising the maximum to equal the (unchanged)
minimum rather than being rejected, and a non-violating candidate passes
through untouched. -/
theorem claim_C9_clamp_at_construction (p : Params) :
    p.min_displacement_strength ≤ (clampDisplacement p).max_displacement_strength ∧
    (clampDisplacement p).min_displacement_strength = p.min_displacement_strength ∧
    (p.max_displacement_strength < p.min_displacement_strength →
      (clampDisplacement p).max_displacement_strength =
        (clampDisplacement p).min_displacement_strength) ∧
    (p.min_displacement_strength ≤ p.max_displacement_strength →
      clampDisplacement p = p) := by
  unfold clampDisplacement
  by_cases h : p.max_displacement_strength < p.min_displacement_strength
  · rw [if_pos h]
    exact ⟨le_refl _, rfl, fun _ => rfl, fun hle => absurd h (not_lt.mpr hle)⟩
  · rw [if_neg h]
    exact ⟨not_lt.mp h, rfl, fun hlt => absurd hlt h, fun _ => rfl⟩

/-- Witness for C9: the violating demo candidate (`min = 3 > 1 = max`) is
clamped so both fields equal 3. -/
theorem claim_C9_clamp_at_construction_witness :
    violatingParams.min_displacement_strength ≤
        (clampDisplacement violatingParams).max_displacement_strength ∧
    (clampDisplacement violatingParams).min_displacement_strength =
        violatingParams.min_displacement_strength ∧
    (clampDisplacement violatingParams).max_displacement_strength =
        (clampDisplacement violatingParams).min_displacement_strength :=
  ⟨(claim_C9_clamp_at_construction violatingParams).1,
    (claim_C9_clamp_at_construction violatingParams).2.1,
    (claim_C9_clamp_at_construction violatingParams).2.2.1 (by decide)⟩

/-! ### Entry invariants -/

theorem short_signal_of_f {p : Params} {bars : List Bar} {i : ℕ}
    (h : short_signal_f p bars i = true) : short_signal p bars i = true :=
  (Bool.and_eq_true_iff.mp h).1

theorem long_signal_of_f {p : Params} {bars : List Bar} {i : ℕ}
    (h : long_signal_f p bars i = true) : long_signal p bars i = true :=
  (Bool.and_eq_true_iff.mp h).1

theorem risk_of_short {p : Params} {bars : List Bar} {i : ℕ} {s : ℚ}
    (hs : short_signal p bars i = true) (hsp : stop_price p bars i = some s) :
    risk p bars i = some (s - (getAt bars i).high) := by
  have hl := long_signal_eq_false_of_short_signal hs
  simp [risk, hl, hs, hsp]

theorem risk_of_long {p : Params} {bars : List Bar} {i : ℕ} {s : ℚ}
    (hl : long_signal p bars i = true) (hsp : stop_price p bars i = some s) :
    risk p bars i = some ((getAt bars i).low - s) := by
  simp [risk, hl, hsp]

/-- Everything a successful entry determines: the entry check passed with a
defined stop price, the position's `risk` field is exactly the signal bar's
(defined) `risk` column, the fill is the next bar's open and time, and the
stop/target sit at `fill ± risk` and `fill ∓ risk * target_rr` according to
the direction, which matches the side of the filtered signal. -/
theorem tryEntry_inv {p : Params} {bars : List Bar} {i : ℕ} {q : Position}
    (h : tryEntry p bars i = some q) :
    (stop_price p bars i).isSome = true ∧
    risk p bars i = some q.risk ∧
    q.entry = (getAt bars (i + 1)).open_ ∧
    q.entry_time = (getAt bars (i + 1)).time ∧
    ((q.direction = .short ∧ short_signal_f p bars i = true ∧
        q.stop = q.entry + q.risk ∧ q.target = q.entry - q.risk * p.target_rr) ∨
      (q.direction = .long ∧ long_signal_f p bars i = true ∧
        q.stop = q.entry - q.risk ∧ q.target = q.entry + q.risk * p.target_rr)) := by
  unfold tryEntry at h
  by_cases hs : (short_signal_f p bars i && (stop_price p bars i).isSome) = true
  · rw [if_pos hs] at h
    obtain ⟨hsf, hsp⟩ := Bool.and_eq_true_iff.mp hs
    obtain ⟨s, hs'⟩ := Option.isSome_iff_exists.mp hsp
    have hrisk := risk_of_short (short_signal_of_f hsf) hs'
    have hq := Option.some_inj.mp h
    subst hq
    refine ⟨hsp, ?_, rfl, rfl, Or.inl ⟨rfl, hsf, rfl, rfl⟩⟩
    rw [hrisk]
    simp [hrisk]
  · rw [if_neg hs] at h
    by_cases hl : (long_signal_f p bars i && (stop_price p bars i).isSome) = true
    · rw [if_pos hl] at h
      obtain ⟨hlf, hsp⟩ := Bool.and_eq_true_iff.mp hl
      obtain ⟨s, hs'⟩ := Option.isSome_iff_exists.mp hsp
      have hrisk := risk_of_long (long_signal_of_f hlf) hs'
      have hq := Option.some_inj.mp h
      subst hq
      refine ⟨hsp, ?_, rfl, rfl, Or.inr ⟨rfl, hlf, rfl, rfl⟩⟩
      rw [hrisk]
      simp [hrisk]
    · rw [if_neg hl] at h
      exact absurd h (by simp)

/-! ### Claim C2 — position levels from the fill price -/

/-- Claim C2: whenever the simulator opens a position, the fill `f` is the
following bar's open, the position inherits the signal bar's risk column
value `r` (not a recomputed one), and the levels are `stop = f + r`,
`target = f - r * target_rr` for a short and `stop = f - r`,
`target = f + r * target_rr` for a long — for every parameter set, so in
particular whatever `target_method` is configured. -/
theorem claim_C2_fill_relative_levels (p : Params) (bars : List Bar) (i : ℕ)
    (q : Position) (h : tryEntry p bars i = some q) :
    q.entry = (getAt bars (i + 1)).open_ ∧
    risk p bars i = some q.risk ∧
    ((q.direction = .short ∧ short_signal_f p bars i = true ∧
        q.stop = q.entry + q.risk ∧ q.target = q.entry - q.risk * p.target_rr) ∨
      (q.direction = .long ∧ long_signal_f p bars i = true ∧
        q.stop = q.entry - q.risk ∧ q.target = q.entry + q.risk * p.target_rr)) := by
  obtain ⟨-, hrisk, hentry, -, hside⟩ := tryEntry_inv h
  exact ⟨hentry, hrisk, hside⟩

/-- Witness for C2: the demo entry at bar 1 opens the demo short position at
bar 2's open with its levels built from risk 1. -/
theorem claim_C2_fill_relative_levels_witness :
    demoPosition.entry = (getAt demoBars 2).open_ ∧
    risk demoParams demoBars 1 = some demoPosition.risk ∧
    ((demoPosition.direction = .short ∧ short_signal_f demoParams demoBars 1 = true ∧
        demoPosition.stop = demoPosition.entry + demoPosition.risk ∧
        demoPosition.target =
          demoPosition.entry - demoPosition.risk * demoParams.target_rr) ∨
      (demoPosition.direction = .long ∧ long_signal_f demoParams demoBars 1 = true ∧
        demoPosition.stop = demoPosition.entry - demoPosition.risk ∧
        demoPosition.target =
          demoPosition.entry + demoPosition.risk * demoParams.target_rr)) :=
  claim_C2_fill_relative_levels demoParams demoBars 1 demoPosition (by decide)

/-! ### Claim C5 — at most one open position -/

/-- Claim C5: the simulator's state carries at most one open position (an
`Option Position`), and the loop never opens on top of one: if a position is
open and the exit check against the next bar does not fire, the step leaves
the state untouched — the current bar's entry signal is ignored (no
pyramiding); conversely the position component can only change when the
exit check fired first, so entries happen only from the flat state. -/
theorem claim_C5_at_most_one_position (p : Params) (bars : List Bar)
    (ts : List Trade) (i : ℕ) :
    (∀ q : Position, exitCheck q (getAt bars (i + 1)) = none →
      backtestStep p bars (ts, some q) i = (ts, some q)) ∧
    (∀ q : Position, (backtestStep p bars (ts, some q) i).2 ≠ some q →
      (exitCheck q (getAt bars (i + 1))).isSome = true) := by
  constructor
  · intro q hnone
    unfold backtestStep
    simp [hnone]
  · intro q hne
    by_cases hex : (exitCheck q (getAt bars (i + 1))).isSome = true
    · exact hex
    · exfalso
      apply hne
      have hnone : exitCheck q (getAt bars (i + 1)) = none := by
        cases hc : exitCheck q (getAt bars (i + 1))
        · rfl
        · rw [hc] at hex
          simp at hex
      unfold backtestStep
      simp [hnone]

/-- Witness for C5: with the demo short open, processing index 1 (next bar
2, which touches neither level) ignores bar 1's fresh short signal and keeps
the state; processing index 2 (next bar 3) does change the position, and
indeed its exit check fires. -/
theorem claim_C5_at_most_one_position_witness :
    backtestStep demoParams demoBars ([], some demoPosition) 1 =
        ([], some demoPosition) ∧
    (exitCheck demoPosition (getAt demoBars 3)).isSome = true :=
  ⟨(claim_C5_at_most_one_position demoParams demoBars [] 1).1 demoPosition (by decide),
    (claim_C5_at_most_one_position demoParams demoBars [] 2).2 demoPosition (by decide)⟩

/-! ### Claim C7 — the max-risk filter nulls only the signal columns -/

/-- Claim C7 counterexample: on the demo data with the filter on and
`max_risk_ticks * tick_size = 1/2` below bar 1's risk of 1, the filter
clears the signal flags — but the bar's stop, target and risk columns keep
their computed values (`some 16`, `some 13`, `some 1`) instead of becoming
"no level" as the claim states. -/
theorem claim_C7_counterexample :
    exceeds_max_risk filterParams demoBars 1 = true ∧
    (riskRow filterParams demoBars 1).short_signal = false ∧
    (riskRow filterParams demoBars 1).long_signal = false ∧
    (riskRow filterParams demoBars 1).stop_price = some 16 ∧
    (riskRow filterParams demoBars 1).target_price = some 13 ∧
    (riskRow filterParams demoBars 1).risk = some 1 := by
  decide

/-- Claim C7 as amended: when the filter is on and a bar's risk exceeds
`max_risk_ticks * tick_size`, only the two signal flags are nulled; the
stop/target/risk columns keep their pre-filter values. The bar still
behaves as if it had never signaled, because the simulator's entry check
requires the signal flag and therefore never opens from such a bar. -/
theorem claim_C7_filter_nulls_signals (p : Params) (bars : List Bar) (i : ℕ)
    (h : exceeds_max_risk p bars i = true) :
    riskRow p bars i =
      ⟨false, false, stop_price p bars i, target_price p bars i, risk p bars i⟩ ∧
    tryEntry p bars i = none := by
  have hsf : short_signal_f p bars i = false := by simp [short_signal_f, h]
  have hlf : long_signal_f p bars i = false := by simp [long_signal_f, h]
  constructor
  · unfold riskRow
    rw [hsf, hlf]
  · unfold tryEntry
    simp [hsf, hlf]

/-- Witness for the amended C7 at the demo data and filter parameters. -/
theorem claim_C7_filter_nulls_signals_witness :
    riskRow filterParams demoBars 1 =
      ⟨false, false, stop_price filterParams demoBars 1,
        target_price filterParams demoBars 1, risk filterParams demoBars 1⟩ ∧
    tryEntry filterParams demoBars 1 = none :=
  claim_C7_filter_nulls_signals filterParams demoBars 1 (by decide)

/-! ### Claim C8 — positive risk is not required for an entry -/

/-- Claim C8 counterexample: under `wick_extreme` stops with a zero upper
wick, bar 1 of `zeroRiskBars` carries a (filter-surviving) short signal
whose computed risk is 0 — not positive — and the simulator still opens a
position from it and emits a trade with risk 0. -/
theorem claim_C8_counterexample :
    short_signal_f wickParams zeroRiskBars 1 = true ∧
    risk wickParams zeroRiskBars 1 = some 0 ∧
    tryEntry wickParams zeroRiskBars 1 = some zeroPosition ∧
    (backtestTrades wickParams zeroRiskBars).map Trade.risk = [0] := by
  decide

/-- Claim C8 as amended: an entry requires a filtered signal and a defined
(non-NaN) stop price on the signal bar — hence a defined risk, inherited by
the position — but the risk is not required to be positive; a signaled bar
with risk 0 still produces a Position and a Trade, and `r_multiple` is
reported as 0 whenever the inherited risk is not positive. -/
theorem claim_C8_risk_not_required_positive (p : Params) (bars : List Bar)
    (i : ℕ) (q : Position) (h : tryEntry p bars i = some q) :
    (stop_price p bars i).isSome = true ∧
    risk p bars i = some q.risk ∧
    (short_signal_f p bars i = true ∨ long_signal_f p bars i = true) ∧
    (∀ (et : ℤ) (ep : ℚ) (reason : ExitReason), q.risk ≤ 0 →
      (mkTrade p q et ep reason).r_multiple = 0) := by
  obtain ⟨hsp, hrisk, -, -, hside⟩ := tryEntry_inv h
  refine ⟨hsp, hrisk, ?_, ?_⟩
  · rcases hside with ⟨-, hsf, -, -⟩ | ⟨-, hlf, -, -⟩
    · exact Or.inl hsf
    · exact Or.inr hlf
  · intro et ep reason hr
    simp [mkTrade, not_lt.mpr hr]

/-- Witness for the amended C8 at the zero-risk data: the opened position
inherits risk 0 and a trade closed at the stop reports `r_multiple = 0`. -/
theorem claim_C8_risk_not_required_positive_witness :
    (stop_price wickParams zeroRiskBars 1).isSome = true ∧
    risk wickParams zeroRiskBars 1 = some zeroPosition.risk ∧
    (short_signal_f wickParams zeroRiskBars 1 = true ∨
      long_signal_f wickParams zeroRiskBars 1 = true) ∧
    (mkTrade wickParams zeroPosition 3 13 .stop).r_multiple = 0 := by
  obtain ⟨h1, h2, h3, h4⟩ :=
    claim_C8_risk_not_required_positive wickParams zeroRiskBars 1 zeroPosition
      (by decide)
  exact ⟨h1, h2, h3, h4 3 13 .stop (by decide)⟩

/-! ### Claim C4 — one-bar execution delay -/

theorem timesIncreasing_pointwise : ∀ (bars : List Bar),
    timesIncreasing bars = true → ∀ j, j + 1 < bars.length →
      (getAt bars j).time < (getAt bars (j + 1)).time := by
  intro bars
  induction bars with
  | nil =>
    intro _ j hj
    simp at hj
  | cons a l ih =>
    intro h j hj
    cases l with
    | nil => simp at hj
    | cons b m =>
      rw [timesIncreasing] at h
      simp only [Bool.and_eq_true, decide_eq_true_eq] at h
      obtain ⟨hab, hrest⟩ := h
      cases j with
      | zero => simpa [getAt] using hab
      | succ k =>
        have hk : k + 1 < (b :: m).length := by
          simpa using hj
        simpa [getAt] using ih hrest k hk

theorem tryEntry_posOK {p : Params} {bars : List Bar} {i : ℕ} {q : Position}
    (hi : i + 1 < bars.length) (h : tryEntry p bars i = some q) :
    posOK p bars q := by
  obtain ⟨-, -, he, het, hside⟩ := tryEntry_inv h
  refine ⟨i, hi, ?_, he, het⟩
  rcases hside with ⟨-, hsf, -, -⟩ | ⟨-, hlf, -, -⟩
  · exact Or.inl hsf
  · exact Or.inr hlf

theorem backtestStep_inv {p : Params} {bars : List Bar}
    {st : List Trade × Option Position} {j : ℕ} (hj : j + 1 < bars.length)
    (hts : ∀ t ∈ st.1, tradeOK p bars t)
    (hpos : ∀ q, st.2 = some q → posOK p bars q) :
    (∀ t ∈ (backtestStep p bars st j).1, tradeOK p bars t) ∧
    (∀ q, (backtestStep p bars st j).2 = some q → posOK p bars q) := by
  obtain ⟨ts, pos⟩ := st
  unfold backtestStep
  cases pos with
  | none =>
    refine ⟨fun t ht => hts t ht, fun q hq => tryEntry_posOK hj ?_⟩
    simpa using hq
  | some q0 =>
    have hq0 : posOK p bars q0 := hpos q0 rfl
    cases hex : exitCheck q0 (getAt bars (j + 1)) with
    | none =>
      simp only [hex]
      exact ⟨hts, fun q hq => hpos q hq⟩
    | some pr =>
      obtain ⟨ep, reason⟩ := pr
      simp only [hex]
      constructor
      · intro t ht
        rcases List.mem_append.mp ht with hmem | hmem
        · exact hts t hmem
        · have heq : t = mkTrade p q0 (getAt bars (j + 1)).time ep reason := by
            simpa using hmem
          subst heq
          obtain ⟨i, hi, hsig, he, het⟩ := hq0
          exact ⟨i, hi, hsig, he, het⟩
      · intro q hq
        exact tryEntry_posOK hj (by simpa using hq)

theorem backtestTrades_tradeOK (p : Params) (bars : List Bar) :
    ∀ t ∈ backtestTrades p bars, tradeOK p bars t := by
  suffices h : ∀ (l : List ℕ), (∀ j ∈ l, j + 1 < bars.length) →
      ∀ (st : List Trade × Option Position),
        (∀ t ∈ st.1, tradeOK p bars t) →
        (∀ q, st.2 = some q → posOK p bars q) →
        ∀ t ∈ (l.foldl (backtestStep p bars) st).1, tradeOK p bars t by
    intro t ht
    refine h (List.range (bars.length - 1)) ?_ ([], none) (by simp) (by simp) t ht
    intro j hj
    have := List.mem_range.mp hj
    omega
  intro l
  induction l with
  | nil =>
    intro _ st hts _ t ht
    rw [List.foldl_nil] at ht
    exact hts t ht
  | cons j l ih =>
    intro hmem st hts hpos t ht
    rw [List.foldl_cons] at ht
    have hj : j + 1 < bars.length := hmem j (List.mem_cons_self j l)
    obtain ⟨h1, h2⟩ := backtestStep_inv hj hts hpos
    exact ih (fun x hx => hmem x (List.mem_cons_of_mem j hx)) _ h1 h2 t ht

/-- Claim C4: every emitted trade is filled at the open price of the bar
immediately following its (filtered-)signal bar — never at the signal bar's
own close — and records that following bar's time as `entry_time`; with
strictly increasing timestamps every trade's `entry_time` is therefore
strictly later than its signal bar's time. -/
theorem claim_C4_one_bar_delay (p : Params) (bars : List Bar)
    (hinc : timesIncreasing bars = true) :
    ∀ t ∈ backtestTrades p bars, ∃ i, i + 1 < bars.length ∧
      (short_signal_f p bars i = true ∨ long_signal_f p bars i = true) ∧
      t.entry = (getAt bars (i + 1)).open_ ∧
      t.entry_time = (getAt bars (i + 1)).time ∧
      (getAt bars i).time < t.entry_time := by
  intro t ht
  obtain ⟨i, hi, hsig, he, het⟩ := backtestTrades_tradeOK p bars t ht
  refine ⟨i, hi, hsig, he, het, ?_⟩
  rw [het]
  exact timesIncreasing_pointwise bars hinc i hi

/-- Witness for C4: the demo trade (the only trade of the demo run) comes
from signal bar 1 and is entered at bar 2's open and time. -/
theorem claim_C4_one_bar_delay_witness :
    ∃ i, i + 1 < demoBars.length ∧
      (short_signal_f demoParams demoBars i = true ∨
        long_signal_f demoParams demoBars i = true) ∧
      demoTrade.entry = (getAt demoBars (i + 1)).open_ ∧
      demoTrade.entry_time = (getAt demoBars (i + 1)).time ∧
      (getAt demoBars i).time < demoTrade.entry_time :=
  claim_C4_one_bar_delay demoParams demoBars (by decide) demoTrade (by decide)

/-! ### Claim C10 — parameters the evaluation pipeline never consumes -/

theorem ema_searchUpdate (p : Params) (e : EntryMethod) (t : TargetMethod)
    (z : ℕ) (bars : List Bar) :
    ∀ i, ema (searchUpdate p e t z) bars i = ema p bars i := by
  intro i
  induction i with
  | zero => rfl
  | succ k ih =>
    unfold ema
    rw [ih]
    exact rfl

theorem is_uptrend_searchUpdate (p : Params) (e : EntryMethod)
    (t : TargetMethod) (z : ℕ) (bars : List Bar) (i : ℕ) :
    is_uptrend (searchUpdate p e t z) bars i = is_uptrend p bars i := by
  unfold is_uptrend
  rw [ema_searchUpdate]

theorem is_downtrend_searchUpdate (p : Params) (e : EntryMethod)
    (t : TargetMethod) (z : ℕ) (bars : List Bar) (i : ℕ) :
    is_downtrend (searchUpdate p e t z) bars i = is_downtrend p bars i := by
  unfold is_downtrend
  rw [ema_searchUpdate]

theorem short_signal_searchUpdate (p : Params) (e : EntryMethod)
    (t : TargetMethod) (z : ℕ) (bars : List Bar) (i : ℕ) :
    short_signal (searchUpdate p e t z) bars i = short_signal p bars i := by
  unfold short_signal
  have hdir : (searchUpdate p e t z).trade_direction = p.trade_direction := rfl
  rw [hdir]
  cases p.trade_direction
  case auto =>
    rw [is_downtrend_searchUpdate]
    exact rfl
  case long_only => rfl
  case short_only => exact rfl
  case both => exact rfl

theorem long_signal_searchUpdate (p : Params) (e : EntryMethod)
    (t : TargetMethod) (z : ℕ) (bars : List Bar) (i : ℕ) :
    long_signal (searchUpdate p e t z) bars i = long_signal p bars i := by
  unfold long_signal
  have hdir : (searchUpdate p e t z).trade_direction = p.trade_direction := rfl
  rw [hdir]
  cases p.trade_direction
  case auto =>
    rw [is_uptrend_searchUpdate]
    exact rfl
  case long_only => rfl
  case short_only => exact rfl
  case both => exact rfl

theorem stop_price_searchUpdate (p : Params) (e : EntryMethod)
    (t : TargetMethod) (z : ℕ) (bars : List Bar) (i : ℕ) :
    stop_price (searchUpdate p e t z) bars i = stop_price p bars i := by
  unfold stop_price
  rw [long_signal_searchUpdate, short_signal_searchUpdate]
  exact rfl

theorem risk_searchUpdate (p : Params) (e : EntryMethod) (t : TargetMethod)
    (z : ℕ) (bars : List Bar) (i : ℕ) :
    risk (searchUpdate p e t z) bars i = risk p bars i := by
  unfold risk
  rw [long_signal_searchUpdate, short_signal_searchUpdate, stop_price_searchUpdate]

theorem exceeds_max_risk_searchUpdate (p : Params) (e : EntryMethod)
    (t : TargetMethod) (z : ℕ) (bars : List Bar) (i : ℕ) :
    exceeds_max_risk (searchUpdate p e t z) bars i = exceeds_max_risk p bars i := by
  unfold exceeds_max_risk
  rw [risk_searchUpdate]
  exact rfl

theorem short_signal_f_searchUpdate (p : Params) (e : EntryMethod)
    (t : TargetMethod) (z : ℕ) (bars : List Bar) (i : ℕ) :
    short_signal_f (searchUpdate p e t z) bars i = short_signal_f p bars i := by
  unfold short_signal_f
  rw [short_signal_searchUpdate, exceeds_max_risk_searchUpdate]

theorem long_signal_f_searchUpdate (p : Params) (e : EntryMethod)
    (t : TargetMethod) (z : ℕ) (bars : List Bar) (i : ℕ) :
    long_signal_f (searchUpdate p e t z) bars i = long_signal_f p bars i := by
  unfold long_signal_f
  rw [long_signal_searchUpdate, exceeds_max_risk_searchUpdate]

theorem tryEntry_searchUpdate (p : Params) (e : EntryMethod)
    (t : TargetMethod) (z : ℕ) (bars : List Bar) (i : ℕ) :
    tryEntry (searchUpdate p e t z) bars i = tryEntry p bars i := by
  unfold tryEntry
  rw [short_signal_f_searchUpdate, long_signal_f_searchUpdate,
    stop_price_searchUpdate, risk_searchUpdate]
  exact rfl

theorem backtestStep_searchUpdate (p : Params) (e : EntryMethod)
    (t : TargetMethod) (z : ℕ) (bars : List Bar)
    (st : List Trade × Option Position) (i : ℕ) :
    backtestStep (searchUpdate p e t z) bars st i = backtestStep p bars st i := by
  unfold backtestStep
  rw [tryEntry_searchUpdate]
  exact rfl

theorem backtestTrades_searchUpdate (p : Params) (e : EntryMethod)
    (t : TargetMethod) (z : ℕ) (bars : List Bar) :
    backtestTrades (searchUpdate p e t z) bars = backtestTrades p bars := by
  unfold backtestTrades
  rw [List.foldl_ext (backtestStep (searchUpdate p e t z) bars)
    (backtestStep p bars) ([], none)
    (fun a b _ => backtestStep_searchUpdate p e t z bars a b)]

/-- Claim C10: for any fixed bar sequence, the backtest's trade list and
every aggregated metric are unchanged by any reassignment of
`entry_method`, `zone_extend_bars` and `target_method` (the `searchUpdate`
of the parameter set): the evaluation pipeline never reads the first two,
and the simulator rebuilds targets from `target_rr` alone without ever
consulting the `target_price` column, the only thing `target_method`
shapes. -/
theorem claim_C10_unread_parameters (p : Params) (e : EntryMethod)
    (t : TargetMethod) (z : ℕ) (bars : List Bar) :
    backtestTrades (searchUpdate p e t z) bars = backtestTrades p bars ∧
    calculate_metrics (backtestTrades (searchUpdate p e t z) bars) =
      calculate_metrics (backtestTrades p bars) := by
  have h := backtestTrades_searchUpdate p e t z bars
  exact ⟨h, congrArg calculate_metrics h⟩

end DisplacementWick
